import Mathlib

/-!
Shallow embedding of the go-examples calculator repository: the
`pkg/calculator` arithmetic engine, the calculation microservice's
HTTP handlers, and the `cmd/calcclient` client, together with proofs
of the specification's claims about them.

Go machine integers (`int`, 64-bit) are modelled as `Int` values with
explicit two's-complement wrapping (`wrap64`).  Go's `/` on integers is
truncated division (`Int.tdiv`), with the documented exception that
`MinInt64 / -1` wraps to `MinInt64` instead of overflowing, which the
wrapping model reproduces.
-/

namespace GoExamples

/-- Two's-complement wrapping into the signed 64-bit range
`[-2^63, 2^63)`, the semantics of Go's `int` arithmetic on 64-bit
platforms ("overflow wraps"). -/
def wrap64 (x : Int) : Int := (x + 2 ^ 63) % 2 ^ 64 - 2 ^ 63

/-- The logging port (`pkg/logger.Logger`) as used by the calculator and
the microservice: each method consumes a message and transforms an
abstract log state `σ`.  Go's logging methods return nothing and only
side-effect; here the side effect is explicit state passing. -/
structure Logger (σ : Type) where
  Info : σ → String → σ
  Infof : σ → String → σ
  Debugf : σ → String → σ
  Warnf : σ → String → σ
  Error : σ → String → σ
  Errorf : σ → String → σ

/-- `calculator.noOpLogger`: every method is inert. -/
def noOpLogger : Logger Unit where
  Info := fun s _ => s
  Infof := fun s _ => s
  Debugf := fun s _ => s
  Warnf := fun s _ => s
  Error := fun s _ => s
  Errorf := fun s _ => s

/-- `calculator.Calculator`: holds the injected logger. -/
structure Calculator (σ : Type) where
  log : Logger σ

/-- `calculator.NewCalculator`. -/
def NewCalculator (log : Logger σ) : Calculator σ := ⟨log⟩

/-- `(*Calculator).Add`: logs at Info, computes `a + b` with native
wrapping, logs the result at Debug. -/
def Calculator.Add (c : Calculator σ) (s : σ) (a b : Int) : Int × σ :=
  let s := c.log.Infof s ("Calculating addition: " ++ toString a ++ " + " ++ toString b)
  let result := wrap64 (a + b)
  let s := c.log.Debugf s ("Addition result: " ++ toString result)
  (result, s)

/-- `(*Calculator).Subtract`. -/
def Calculator.Subtract (c : Calculator σ) (s : σ) (a b : Int) : Int × σ :=
  let s := c.log.Infof s ("Calculating subtraction: " ++ toString a ++ " - " ++ toString b)
  let result := wrap64 (a - b)
  let s := c.log.Debugf s ("Subtraction result: " ++ toString result)
  (result, s)

/-- `(*Calculator).Multiply`. -/
def Calculator.Multiply (c : Calculator σ) (s : σ) (a b : Int) : Int × σ :=
  let s := c.log.Infof s ("Calculating multiplication: " ++ toString a ++ " * " ++ toString b)
  let result := wrap64 (a * b)
  let s := c.log.Debugf s ("Multiplication result: " ++ toString result)
  (result, s)

/-- `(*Calculator).Divide`: guards `b == 0` (returning 0 after logging
an error), otherwise Go truncated division, which wraps at
`MinInt64 / -1`. -/
def Calculator.Divide (c : Calculator σ) (s : σ) (a b : Int) : Int × σ :=
  let s := c.log.Infof s ("Calculating division: " ++ toString a ++ " / " ++ toString b)
  if b = 0 then
    let s := c.log.Error s "Division by zero"
    (0, s)
  else
    let result := wrap64 (Int.tdiv a b)
    let s := c.log.Debugf s ("Division result: " ++ toString result)
    (result, s)

/-- Package-level `calculator.Add` (no-op logger, backward compatible). -/
def Add (a b : Int) : Int := ((NewCalculator noOpLogger).Add () a b).1

/-- Package-level `calculator.Subtract`. -/
def Subtract (a b : Int) : Int := ((NewCalculator noOpLogger).Subtract () a b).1

/-- Package-level `calculator.Multiply`. -/
def Multiply (a b : Int) : Int := ((NewCalculator noOpLogger).Multiply () a b).1

/-- Package-level `calculator.Divide`. -/
def Divide (a b : Int) : Int := ((NewCalculator noOpLogger).Divide () a b).1

/-- C1 counterexample: at `a = MinInt64`, `b = -1` the engine's `Divide`
returns `MinInt64` (Go wraps this overflow), which is not `a/b`
truncated toward zero (that quotient is `2^63`), so the claim's
unqualified `Divide(a,b) == a/b` fails at this input. -/
theorem divide_min_int_neg_one_wraps :
    ((NewCalculator noOpLogger).Divide () (-(2 ^ 63)) (-1)).1 = -(2 ^ 63)
    ∧ Int.tdiv (-(2 ^ 63)) (-1) = 2 ^ 63
    ∧ ((NewCalculator noOpLogger).Divide () (-(2 ^ 63)) (-1)).1
        ≠ Int.tdiv (-(2 ^ 63)) (-1) := by
  refine ⟨by decide, by decide, by decide⟩

/-- C1 (amended): `Add`, `Subtract`, `Multiply` agree with `a+b`, `a-b`,
`a*b` modulo the native 64-bit width, and for nonzero `b`, `Divide`
equals `a/b` truncated toward zero modulo the native width — in
particular it equals the truncated quotient exactly whenever that
quotient is representable in the native width (the sole exception being
`a = MinInt64, b = -1`, where it wraps). -/
theorem engine_ops_correct (σ : Type) (c : Calculator σ) (s : σ) (a b : Int) :
    (c.Add s a b).1 % 2 ^ 64 = (a + b) % 2 ^ 64
    ∧ (c.Subtract s a b).1 % 2 ^ 64 = (a - b) % 2 ^ 64
    ∧ (c.Multiply s a b).1 % 2 ^ 64 = (a * b) % 2 ^ 64
    ∧ (b ≠ 0 → (c.Divide s a b).1 % 2 ^ 64 = Int.tdiv a b % 2 ^ 64)
    ∧ (b ≠ 0 → -(2 ^ 63) ≤ Int.tdiv a b → Int.tdiv a b < 2 ^ 63 →
        (c.Divide s a b).1 = Int.tdiv a b) := by
  refine ⟨?_, ?_, ?_, ?_, ?_⟩
  · show wrap64 (a + b) % 2 ^ 64 = (a + b) % 2 ^ 64
    unfold wrap64; omega
  · show wrap64 (a - b) % 2 ^ 64 = (a - b) % 2 ^ 64
    unfold wrap64; omega
  · show wrap64 (a * b) % 2 ^ 64 = (a * b) % 2 ^ 64
    unfold wrap64; omega
  · intro hb
    simp only [Calculator.Divide, if_neg hb]
    unfold wrap64; omega
  · intro hb h1 h2
    simp only [Calculator.Divide, if_neg hb]
    unfold wrap64; omega

/-- C1 witness: the engine computes the spec's worked examples,
`Divide(11,2) = 5` and `Divide(-11,2) = -5`, and `Add(5,3) = 8`. -/
theorem engine_ops_correct_witness :
    ((NewCalculator noOpLogger).Divide () 11 2).1 = 5
    ∧ ((NewCalculator noOpLogger).Divide () (-11) 2).1 = -5 := by
  constructor
  · have h := (engine_ops_correct Unit (NewCalculator noOpLogger) () 11 2).2.2.2.2
      (by decide) (by decide) (by decide)
    rw [h]; decide
  · have h := (engine_ops_correct Unit (NewCalculator noOpLogger) () (-11) 2).2.2.2.2
      (by decide) (by decide) (by decide)
    rw [h]; decide

/-- C3: the engine's `Divide` is a total function, and invoked directly
with `b = 0` it returns 0 (for any logger, and for the package-level
function): no exception or panic is modelled because the Go code guards
the zero divisor before dividing. -/
theorem divide_by_zero_returns_zero (σ : Type) (c : Calculator σ) (s : σ) (a : Int) :
    (c.Divide s a 0).1 = 0 ∧ Divide a 0 = 0 := by
  constructor
  · simp [Calculator.Divide]
  · simp [Divide, Calculator.Divide]

/-- C7: logger noninterference — the numeric result of every engine
operation depends only on the operands, never on the logger
implementation or its state; the package-level no-op-logger functions
agree with any logger-instantiated calculator. -/
theorem logger_noninterference (σ₁ σ₂ : Type) (c₁ : Calculator σ₁) (c₂ : Calculator σ₂)
    (s₁ : σ₁) (s₂ : σ₂) (a b : Int) :
    (c₁.Add s₁ a b).1 = (c₂.Add s₂ a b).1
    ∧ (c₁.Subtract s₁ a b).1 = (c₂.Subtract s₂ a b).1
    ∧ (c₁.Multiply s₁ a b).1 = (c₂.Multiply s₂ a b).1
    ∧ (c₁.Divide s₁ a b).1 = (c₂.Divide s₂ a b).1
    ∧ Add a b = (c₁.Add s₁ a b).1
    ∧ Subtract a b = (c₁.Subtract s₁ a b).1
    ∧ Multiply a b = (c₁.Multiply s₁ a b).1
    ∧ Divide a b = (c₁.Divide s₁ a b).1 := by
  refine ⟨rfl, rfl, rfl, ?_, rfl, rfl, rfl, ?_⟩
  · by_cases hb : b = 0 <;> simp [Calculator.Divide, hb]
  · by_cases hb : b = 0 <;> simp [Divide, Calculator.Divide, hb]

/-- `CalculationRequest` from `cmd/calcservice`: an operation name and
two integer operands, as decoded from the JSON body. -/
structure CalculationRequest where
  Operation : String
  A : Int
  B : Int
deriving DecidableEq

/-- `CalculationResponse`: `Result` and `Success` always serialized,
`Error` tagged `omitempty` (absent from the JSON when empty). -/
structure CalculationResponse where
  Result : Int
  Success : Bool
  Error : String
deriving DecidableEq

/-- JSON values appearing in the calculator wire protocol. -/
inductive JsonVal where
  | num (n : Int)
  | bool (b : Bool)
  | str (s : String)
deriving DecidableEq

/-- Go `encoding/json` marshalling of a `CalculationResponse`: struct
fields in declaration order, the `error` field omitted when empty
(`omitempty`). -/
def encodeCalculationResponse (r : CalculationResponse) : List (String × JsonVal) :=
  [("result", JsonVal.num r.Result), ("success", JsonVal.bool r.Success)]
    ++ (if r.Error = "" then [] else [("error", JsonVal.str r.Error)])

/-- Go `encoding/json` unmarshalling of a JSON object into
`CalculationResponse` (as the client does): a missing field keeps the
Go zero value, a field of the wrong JSON type is an error. -/
def decodeCalculationResponse (fields : List (String × JsonVal)) :
    Option CalculationResponse :=
  match fields.lookup "result" with
  | some (JsonVal.bool _) => none
  | some (JsonVal.str _) => none
  | r =>
    match fields.lookup "success" with
    | some (JsonVal.num _) => none
    | some (JsonVal.str _) => none
    | s =>
      match fields.lookup "error" with
      | some (JsonVal.num _) => none
      | some (JsonVal.bool _) => none
      | e =>
        some { Result := match r with | some (JsonVal.num n) => n | _ => 0
               Success := match s with | some (JsonVal.bool b) => b | _ => false
               Error := match e with | some (JsonVal.str m) => m | _ => "" }

/-- One invocation of an arithmetic-engine operation, recorded by the
handler model so that "the engine was not invoked" is statable. -/
inductive EngineCall where
  | add (a b : Int)
  | subtract (a b : Int)
  | multiply (a b : Int)
  | divide (a b : Int)
deriving DecidableEq

/-- The observable outcome of one `/calculate` request: HTTP status,
response envelope, the engine operations invoked, and the log state. -/
structure HandlerOutput (σ : Type) where
  status : Nat
  response : CalculationResponse
  engineCalls : List EngineCall
  logState : σ
deriving DecidableEq

/-- `sendErrorResponse`: logs at Warn and produces the error envelope
(`Result` keeps Go's zero value 0, `Success` false) with the given
status code. -/
def sendErrorResponse (log : Logger σ) (s : σ) (message : String) (statusCode : Nat) :
    Nat × CalculationResponse × σ :=
  let s := log.Warnf s ("Error response: " ++ message ++ " (code: " ++ toString statusCode ++ ")")
  (statusCode, ⟨0, false, message⟩, s)

/-- `createCalculateHandler`'s per-request behaviour, from the decoded
body (`none` models a JSON decode failure): validates the operation
string case-sensitively, rejects `divide` with `b == 0` before touching
the engine, dispatches to the calculator, and wraps the result with
`success = true` and status 200, or an error envelope with status 400. -/
def createCalculateHandler (cal : Calculator σ) (log : Logger σ) (s : σ)
    (decoded : Option CalculationRequest) : HandlerOutput σ :=
  match decoded with
  | none =>
    let (st, resp, s) := sendErrorResponse log s "Invalid request format" 400
    ⟨st, resp, [], s⟩
  | some req =>
    let s := log.Infof s ("Calculation request: " ++ req.Operation ++ " "
      ++ toString req.A ++ " " ++ toString req.B)
    if req.Operation = "add" then
      let (result, s) := cal.Add s req.A req.B
      ⟨200, ⟨result, true, ""⟩, [EngineCall.add req.A req.B], s⟩
    else if req.Operation = "subtract" then
      let (result, s) := cal.Subtract s req.A req.B
      ⟨200, ⟨result, true, ""⟩, [EngineCall.subtract req.A req.B], s⟩
    else if req.Operation = "multiply" then
      let (result, s) := cal.Multiply s req.A req.B
      ⟨200, ⟨result, true, ""⟩, [EngineCall.multiply req.A req.B], s⟩
    else if req.Operation = "divide" then
      if req.B = 0 then
        let (st, resp, s) := sendErrorResponse log s "Division by zero" 400
        ⟨st, resp, [], s⟩
      else
        let (result, s) := cal.Divide s req.A req.B
        ⟨200, ⟨result, true, ""⟩, [EngineCall.divide req.A req.B], s⟩
    else
      let (st, resp, s) := sendErrorResponse log s ("Unknown operation: " ++ req.Operation) 400
      ⟨st, resp, [], s⟩

/-- Helper: a string with a nonempty prefix is nonempty. -/
theorem string_append_ne_empty (s t : String) (hs : s.length ≠ 0) : s ++ t ≠ "" := by
  intro h
  have h2 := congrArg String.length h
  simp [String.length_append] at h2
  omega

/-- C2: a decoded request with operation `"divide"` and `b = 0` yields
HTTP 400 with error `"Division by zero"`, and the handler performs no
engine call at all. -/
theorem divide_by_zero_http_rejected (σ : Type) (cal : Calculator σ) (log : Logger σ)
    (s : σ) (req : CalculationRequest)
    (hop : req.Operation = "divide") (hb : req.B = 0) :
    (createCalculateHandler cal log s (some req)).status = 400
    ∧ (createCalculateHandler cal log s (some req)).response
        = ⟨0, false, "Division by zero"⟩
    ∧ (createCalculateHandler cal log s (some req)).engineCalls = [] := by
  refine ⟨?_, ?_, ?_⟩ <;> simp [createCalculateHandler, sendErrorResponse, hop, hb]

/-- C2 witness: `divide 10 0` through the handler gives status 400,
the `"Division by zero"` envelope, and an empty engine-call trace. -/
theorem divide_by_zero_http_rejected_witness :
    (createCalculateHandler (NewCalculator noOpLogger) noOpLogger ()
        (some ⟨"divide", 10, 0⟩)).status = 400
    ∧ (createCalculateHandler (NewCalculator noOpLogger) noOpLogger ()
        (some ⟨"divide", 10, 0⟩)).response = ⟨0, false, "Division by zero"⟩
    ∧ (createCalculateHandler (NewCalculator noOpLogger) noOpLogger ()
        (some ⟨"divide", 10, 0⟩)).engineCalls = [] :=
  divide_by_zero_http_rejected Unit (NewCalculator noOpLogger) noOpLogger ()
    ⟨"divide", 10, 0⟩ rfl rfl

/-- C4: a decoded request whose operation is not exactly one of the four
supported names (the empty string included) yields HTTP 400 with the
error message `"Unknown operation: " ++ op`, which contains the literal
operation string, and no engine call. -/
theorem unknown_operation_http_rejected (σ : Type) (cal : Calculator σ) (log : Logger σ)
    (s : σ) (req : CalculationRequest)
    (h1 : req.Operation ≠ "add") (h2 : req.Operation ≠ "subtract")
    (h3 : req.Operation ≠ "multiply") (h4 : req.Operation ≠ "divide") :
    (createCalculateHandler cal log s (some req)).status = 400
    ∧ (createCalculateHandler cal log s (some req)).response
        = ⟨0, false, "Unknown operation: " ++ req.Operation⟩
    ∧ (createCalculateHandler cal log s (some req)).engineCalls = [] := by
  refine ⟨?_, ?_, ?_⟩ <;>
    simp [createCalculateHandler, sendErrorResponse, h1, h2, h3, h4]

/-- C4 witness: operation `"power"` (and the empty string) gives status
400 with the literal operation name in the error message. -/
theorem unknown_operation_http_rejected_witness :
    ((createCalculateHandler (NewCalculator noOpLogger) noOpLogger ()
        (some ⟨"power", 2, 3⟩)).status = 400
      ∧ (createCalculateHandler (NewCalculator noOpLogger) noOpLogger ()
          (some ⟨"power", 2, 3⟩)).response = ⟨0, false, "Unknown operation: power"⟩
      ∧ (createCalculateHandler (NewCalculator noOpLogger) noOpLogger ()
          (some ⟨"power", 2, 3⟩)).engineCalls = [])
    ∧ (createCalculateHandler (NewCalculator noOpLogger) noOpLogger ()
        (some ⟨"", 1, 1⟩)).response = ⟨0, false, "Unknown operation: "⟩ :=
  ⟨unknown_operation_http_rejected Unit (NewCalculator noOpLogger) noOpLogger ()
      ⟨"power", 2, 3⟩ (by decide) (by decide) (by decide) (by decide),
    (unknown_operation_http_rejected Unit (NewCalculator noOpLogger) noOpLogger ()
      ⟨"", 1, 1⟩ (by decide) (by decide) (by decide) (by decide)).2.1⟩

/-- C6: every response the `/calculate` handler produces is in exactly
one of the two shapes: success with no serialized `error` field, or
failure with a nonempty `error` field and `result = 0`. -/
theorem response_envelope_exclusive (σ : Type) (cal : Calculator σ) (log : Logger σ)
    (s : σ) (decoded : Option CalculationRequest) :
    ((createCalculateHandler cal log s decoded).response.Success = true
      ∧ (createCalculateHandler cal log s decoded).response.Error = ""
      ∧ (encodeCalculationResponse
          (createCalculateHandler cal log s decoded).response).lookup "error" = none)
    ∨ ((createCalculateHandler cal log s decoded).response.Success = false
      ∧ (createCalculateHandler cal log s decoded).response.Error ≠ ""
      ∧ (encodeCalculationResponse
          (createCalculateHandler cal log s decoded).response).lookup "error"
          = some (JsonVal.str
              (createCalculateHandler cal log s decoded).response.Error)
      ∧ (createCalculateHandler cal log s decoded).response.Result = 0) := by
  have hne : ∀ op : String, "Unknown operation: " ++ op ≠ "" := fun op =>
    string_append_ne_empty "Unknown operation: " op (by decide)
  match decoded with
  | none =>
    refine Or.inr ⟨?_, ?_, ?_, ?_⟩ <;>
      simp [createCalculateHandler, sendErrorResponse, encodeCalculationResponse, List.lookup]
  | some req =>
    by_cases ha : req.Operation = "add"
    · exact Or.inl ⟨by simp [createCalculateHandler, ha],
        by simp [createCalculateHandler, ha],
        by simp [createCalculateHandler, ha, encodeCalculationResponse, List.lookup]⟩
    · by_cases hs : req.Operation = "subtract"
      · exact Or.inl ⟨by simp [createCalculateHandler, ha, hs],
          by simp [createCalculateHandler, ha, hs],
          by simp [createCalculateHandler, ha, hs, encodeCalculationResponse, List.lookup]⟩
      · by_cases hm : req.Operation = "multiply"
        · exact Or.inl ⟨by simp [createCalculateHandler, ha, hs, hm],
            by simp [createCalculateHandler, ha, hs, hm],
            by simp [createCalculateHandler, ha, hs, hm, encodeCalculationResponse,
              List.lookup]⟩
        · by_cases hd : req.Operation = "divide"
          · by_cases hb : req.B = 0
            · refine Or.inr ⟨?_, ?_, ?_, ?_⟩ <;>
                simp [createCalculateHandler, sendErrorResponse, ha, hs, hm, hd, hb,
                  encodeCalculationResponse, List.lookup]
            · exact Or.inl ⟨by simp [createCalculateHandler, ha, hs, hm, hd, hb],
                by simp [createCalculateHandler, ha, hs, hm, hd, hb],
                by simp [createCalculateHandler, ha, hs, hm, hd, hb,
                  encodeCalculationResponse, List.lookup]⟩
          · refine Or.inr ⟨?_, ?_, ?_, ?_⟩
            · simp [createCalculateHandler, sendErrorResponse, ha, hs, hm, hd]
            · simpa [createCalculateHandler, sendErrorResponse, ha, hs, hm, hd]
                using hne req.Operation
            · simp [createCalculateHandler, sendErrorResponse, ha, hs, hm, hd,
                encodeCalculationResponse, hne req.Operation, List.lookup]
            · simp [createCalculateHandler, sendErrorResponse, ha, hs, hm, hd]

/-- C8: JSON round trip — encoding any `CalculationResponse` with the
service's marshaller (with `omitempty` on `error`) and decoding it with
the client's unmarshaller yields field-identical values. -/
theorem response_roundtrip (r : CalculationResponse) :
    decodeCalculationResponse (encodeCalculationResponse r) = some r := by
  obtain ⟨res, suc, err⟩ := r
  by_cases h : err = "" <;>
    simp [encodeCalculationResponse, decodeCalculationResponse, h, List.lookup]

/-- Go's `net/http.ResponseWriter` as a state machine: headers, a
status line that is committed by the first `WriteHeader` call (a second
call is superfluous and ignored, per the `net/http` documentation), and
an accumulated body. -/
structure ResponseWriter where
  headerWritten : Bool
  status : Nat
  headers : List (String × String)
  body : String
deriving DecidableEq

/-- A fresh `ResponseWriter` before the handler runs; an untouched
writer defaults to status 200 when the body is first written. -/
def ResponseWriter.initial : ResponseWriter := ⟨false, 200, [], ""⟩

/-- `WriteHeader`: commits the status code; calls after the first are
ignored ("superfluous response.WriteHeader call"). -/
def ResponseWriter.writeHeader (w : ResponseWriter) (code : Nat) : ResponseWriter :=
  if w.headerWritten then w else { w with headerWritten := true, status := code }

/-- `Header().Set`. -/
def ResponseWriter.setHeader (w : ResponseWriter) (k v : String) : ResponseWriter :=
  { w with headers := (k, v) :: w.headers }

/-- `healthCheckHandler`: sets the content type, writes status 200, then
encodes `{"status": true}`.  `encodeFails` models the (practically
unreachable) error return of `json.Encoder.Encode`, on which the Go
code calls `WriteHeader(StatusInternalServerError)`; on a marshalling
error the encoder has written no body bytes. -/
def healthCheckHandler (encodeFails : Bool) (w : ResponseWriter) : ResponseWriter :=
  let w := w.setHeader "Content-Type" "application/json"
  let w := w.writeHeader 200
  if encodeFails then
    w.writeHeader 500
  else
    { w with body := w.body ++ "\x7b\"status\":true\x7d\n" }

/-- C5: on the normal path `/health` responds 200 with body
`{"status":true}`; but on the encoding-failure path the claimed HTTP
500 is never delivered — the handler has already committed status 200,
so the later `WriteHeader(500)` is superfluous and the response goes
out with status 200 and an empty body, contradicting the claim. -/
theorem health_encode_failure_keeps_status_200 :
    (healthCheckHandler false ResponseWriter.initial).status = 200
    ∧ (healthCheckHandler false ResponseWriter.initial).body = "\x7b\"status\":true\x7d\n"
    ∧ (healthCheckHandler true ResponseWriter.initial).status = 200
    ∧ (healthCheckHandler true ResponseWriter.initial).status ≠ 500
    ∧ (healthCheckHandler true ResponseWriter.initial).body = "" := by
  refine ⟨by decide, ?_, by decide, by decide, ?_⟩ <;> rfl

/-- The outcome of the client's `http.Client.Do` plus `io.ReadAll`:
either a transport error, a body-read error, or an HTTP status with the
raw response body. -/
inductive TransportResult where
  | netErr (msg : String)
  | readErr (msg : String)
  | httpResp (status : Nat) (body : String)
deriving DecidableEq

/-- `callCalculateAPI` from `cmd/calcclient`, given the transport
outcome and `json.Unmarshal` for `CalculationResponse` bodies
(`unmarshal`, the stdlib decoder, passed as a parameter): transport
failure becomes a local error; a non-200 status becomes an error
embedding the status code and raw body; an undecodable body is an
error; a decoded response with `success = false` becomes an error with
the server's message; otherwise the decoded `result` is returned. -/
def callCalculateAPI (unmarshal : String → Option CalculationResponse)
    (transport : TransportResult) : Except String Int :=
  match transport with
  | TransportResult.netErr msg => Except.error ("request failed: " ++ msg)
  | TransportResult.readErr msg => Except.error ("failed to read response: " ++ msg)
  | TransportResult.httpResp status body =>
    if status ≠ 200 then
      Except.error ("API error (status " ++ toString status ++ "): " ++ body)
    else
      match unmarshal body with
      | none => Except.error "failed to parse response"
      | some calcResp =>
        if calcResp.Success = false then
          Except.error ("API error: " ++ calcResp.Error)
        else
          Except.ok calcResp.Result

/-- C9: the client maps each calculation-call outcome as claimed —
transport failure to a local error, non-200 status to an error carrying
the status code and raw body, a decoded `success = false` response to
an error carrying the server's message, and otherwise returns the
decoded `result`. -/
theorem client_outcome_mapping (unmarshal : String → Option CalculationResponse)
    (msg body : String) (status : Nat) (r : CalculationResponse) :
    callCalculateAPI unmarshal (TransportResult.netErr msg)
        = Except.error ("request failed: " ++ msg)
    ∧ (status ≠ 200 → callCalculateAPI unmarshal (TransportResult.httpResp status body)
        = Except.error ("API error (status " ++ toString status ++ "): " ++ body))
    ∧ (unmarshal body = some r → r.Success = false →
        callCalculateAPI unmarshal (TransportResult.httpResp 200 body)
          = Except.error ("API error: " ++ r.Error))
    ∧ (unmarshal body = some r → r.Success = true →
        callCalculateAPI unmarshal (TransportResult.httpResp 200 body)
          = Except.ok r.Result) := by
  refine ⟨rfl, ?_, ?_, ?_⟩
  · intro h
    simp [callCalculateAPI, h]
  · intro hu hs
    simp [callCalculateAPI, hu, hs]
  · intro hu hs
    simp [callCalculateAPI, hu, hs]

/-- C9 witness: the mapping evaluated on concrete outcomes, with a
concrete decoder returning a failure envelope for body `"e"` and a
success envelope (result 8) for any other body. -/
theorem client_outcome_mapping_witness :
    callCalculateAPI
        (fun b => if b = "e" then some ⟨0, false, "Division by zero"⟩ else some ⟨8, true, ""⟩)
        (TransportResult.netErr "connection refused")
      = Except.error "request failed: connection refused"
    ∧ callCalculateAPI
        (fun b => if b = "e" then some ⟨0, false, "Division by zero"⟩ else some ⟨8, true, ""⟩)
        (TransportResult.httpResp 400 "bad")
      = Except.error "API error (status 400): bad"
    ∧ callCalculateAPI
        (fun b => if b = "e" then some ⟨0, false, "Division by zero"⟩ else some ⟨8, true, ""⟩)
        (TransportResult.httpResp 200 "e")
      = Except.error "API error: Division by zero"
    ∧ callCalculateAPI
        (fun b => if b = "e" then some ⟨0, false, "Division by zero"⟩ else some ⟨8, true, ""⟩)
        (TransportResult.httpResp 200 "ok")
      = Except.ok 8 := by
  have h := client_outcome_mapping
    (fun b => if b = "e" then some ⟨0, false, "Division by zero"⟩ else some ⟨8, true, ""⟩)
    "connection refused" "e" 400 ⟨0, false, "Division by zero"⟩
  have h2 := client_outcome_mapping
    (fun b => if b = "e" then some ⟨0, false, "Division by zero"⟩ else some ⟨8, true, ""⟩)
    "connection refused" "ok" 400 ⟨8, true, ""⟩
  have h3 := client_outcome_mapping
    (fun b => if b = "e" then some ⟨0, false, "Division by zero"⟩ else some ⟨8, true, ""⟩)
    "connection refused" "bad" 400 ⟨8, true, ""⟩
  exact ⟨h.1, Eq.trans (h3.2.1 (by decide)) rfl,
    h.2.2.1 (by decide) rfl, h2.2.2.2 (by decide) rfl⟩


/-- Whitespace as `strings.Fields` sees it (the ASCII whitespace
characters, which is all these inputs use). -/
def isGoSpace (c : Char) : Bool :=
  c == ' ' || c == '\t' || c == '\n' || c == '\r' || c == '\x0b' || c == '\x0c'

/-- Worker for `goFields`: accumulates the current token (reversed) and
splits around runs of whitespace. -/
def fieldsAux (cur : List Char) : List Char → List String
  | [] => if cur.isEmpty then [] else [String.mk cur.reverse]
  | c :: cs =>
    if isGoSpace c then
      if cur.isEmpty then fieldsAux [] cs
      else String.mk cur.reverse :: fieldsAux [] cs
    else fieldsAux (c :: cur) cs

/-- `strings.Fields`: the whitespace-separated tokens of the input, in
order, with no empty tokens. -/
def goFields (s : String) : List String := fieldsAux [] s.toList

/-- `strings.ToLower` (modelled on the ASCII letters, which is all the
operation tokens use). -/
def toLowerGo (s : String) : String := String.mk (s.toList.map Char.toLower)

/-- `strconv.Atoi`: an optional sign followed by at least one digit and
nothing else; a value outside the 64-bit range is an error. -/
def Atoi (s : String) : Option Int :=
  let cs := s.toList
  let signed : Int × List Char :=
    match cs with
    | '+' :: rest => (1, rest)
    | '-' :: rest => (-1, rest)
    | _ => (1, cs)
  if signed.2.isEmpty then none
  else if signed.2.all Char.isDigit then
    let n : Int :=
      signed.1 * ((signed.2.foldl (fun acc c => acc * 10 + (c.toNat - 48)) 0 : Nat) : Int)
    if -(2 ^ 63) ≤ n ∧ n < 2 ^ 63 then some n else none
  else none

/-- `processCommand` from `cmd/calcclient`: tokenizes the input line,
requires at least three tokens, lowercases the operation token and
validates it against the four supported names, parses both operands,
and either returns a local error (so no HTTP call happens) or the
`CalculationRequest` that is then handed to `callCalculateAPI`. -/
def processCommand (input : String) : Except String CalculationRequest :=
  match goFields input with
  | op :: n1 :: n2 :: _ =>
    let operation := toLowerGo op
    if operation = "add" ∨ operation = "subtract" ∨ operation = "multiply"
        ∨ operation = "divide" then
      match Atoi n1 with
      | none => Except.error "first number is invalid"
      | some a =>
        match Atoi n2 with
        | none => Except.error "second number is invalid"
        | some b => Except.ok ⟨operation, a, b⟩
    else
      Except.error ("unknown operation: " ++ operation
        ++ ", supported operations are add, subtract, multiply, and divide")
  | _ => Except.error "invalid input, expected format: <operation> <number1> <number2>"

/-- C10 counterexample: the input `"power 1"` has first token `"power"`,
not one of the four operations, yet `processCommand` reports the
token-count error, not an "unknown operation" error — the token count
is checked before the operation is validated, so the claim's
unconditional "unknown operation" error fails on inputs with fewer than
three tokens. -/
theorem short_unknown_input_gets_count_error :
    processCommand "power 1"
      = Except.error "invalid input, expected format: <operation> <number1> <number2>"
    ∧ toLowerGo ((goFields "power 1").getD 0 "") = "power"
    ∧ processCommand "power 1"
      ≠ Except.error ("unknown operation: power, "
          ++ "supported operations are add, subtract, multiply, and divide") := by
  refine ⟨rfl, rfl, ?_⟩
  intro h
  have h2 := (rfl : processCommand "power 1"
    = Except.error "invalid input, expected format: <operation> <number1> <number2>").symm.trans h
  injection h2 with h3
  exact absurd h3 (by decide)

/-- C10 (amended): for every input with at least three
whitespace-separated tokens whose lowercased first token is not one of
the four operations, `processCommand` returns the local "unknown
operation" error (so no HTTP request is issued); inputs with fewer than
three tokens are also rejected locally, but with the token-count error
rather than the "unknown operation" one. Every request `processCommand`
does emit carries one of the four operation names, namely the
lowercased first token — mixed-case names are accepted and transmitted
lowercased, and an unknown operation never reaches the server. -/
theorem client_validates_operation_locally (input : String) :
    (∀ op n1 n2 rest, goFields input = op :: n1 :: n2 :: rest →
      toLowerGo op ≠ "add" → toLowerGo op ≠ "subtract" →
      toLowerGo op ≠ "multiply" → toLowerGo op ≠ "divide" →
      processCommand input
        = Except.error ("unknown operation: " ++ toLowerGo op
            ++ ", supported operations are add, subtract, multiply, and divide"))
    ∧ ((goFields input).length < 3 →
      processCommand input
        = Except.error "invalid input, expected format: <operation> <number1> <number2>")
    ∧ (∀ req : CalculationRequest, processCommand input = Except.ok req →
        (req.Operation = "add" ∨ req.Operation = "subtract" ∨ req.Operation = "multiply"
          ∨ req.Operation = "divide")
        ∧ ∀ op n1 n2 rest, goFields input = op :: n1 :: n2 :: rest →
            req.Operation = toLowerGo op) := by
  refine ⟨?_, ?_, ?_⟩
  · intro op n1 n2 rest hf h1 h2 h4 h5
    simp [processCommand, hf, h1, h2, h4, h5]
  · intro hlen
    rcases hf : goFields input with _ | ⟨op, tl⟩
    · simp [processCommand, hf]
    · rcases tl with _ | ⟨n1, tl2⟩
      · simp [processCommand, hf]
      · rcases tl2 with _ | ⟨n2, rest⟩
        · simp [processCommand, hf]
        · rw [hf] at hlen
          simp at hlen
          omega
  · intro req h
    obtain ⟨ro, ra, rb⟩ := req
    rcases hf : goFields input with _ | ⟨op, tl⟩
    · simp [processCommand, hf] at h
    · rcases tl with _ | ⟨n1, tl2⟩
      · simp [processCommand, hf] at h
      · rcases tl2 with _ | ⟨n2, rest⟩
        · simp [processCommand, hf] at h
        · by_cases hc : toLowerGo op = "add" ∨ toLowerGo op = "subtract"
            ∨ toLowerGo op = "multiply" ∨ toLowerGo op = "divide"
          · rcases hA : Atoi n1 with _ | a
            · simp [processCommand, hf, hc, hA] at h
            · rcases hB : Atoi n2 with _ | b
              · simp [processCommand, hf, hc, hA, hB] at h
              · simp [processCommand, hf, hc, hA, hB] at h
                obtain ⟨h1, h2, h3⟩ := h
                subst h1
                refine ⟨hc, ?_⟩
                intro op2 m1 m2 rest2 hf2
                injection hf2 with e1 _
                rw [e1]
          · simp [processCommand, hf, hc] at h

/-- C10 witness: `"POWER 1 2"` is rejected locally with the "unknown
operation" message, and `"ADD 5 3"` is accepted with the lowercased
operation `"add"` in the transmitted request. -/
theorem client_validates_operation_locally_witness :
    processCommand "POWER 1 2"
      = Except.error ("unknown operation: power, "
          ++ "supported operations are add, subtract, multiply, and divide")
    ∧ processCommand "ADD 5 3" = Except.ok ⟨"add", 5, 3⟩
    ∧ ("add" = "add" ∨ "add" = "subtract" ∨ "add" = "multiply" ∨ "add" = "divide")
    ∧ "add" = toLowerGo "ADD" := by
  have h1 := (client_validates_operation_locally "POWER 1 2").1 "POWER" "1" "2" []
    (by decide) (by decide) (by decide) (by decide) (by decide)
  have h2 := (client_validates_operation_locally "ADD 5 3").2.2 ⟨"add", 5, 3⟩ rfl
  exact ⟨Eq.trans h1 rfl, rfl, h2.1, h2.2 "ADD" "5" "3" [] (by decide)⟩

end GoExamples
